import Mathlib

/-
Verification of the OAuth2 login core of st_test_lg_1.py.

The Python source is shallowly embedded: Streamlit session state becomes an
explicit SessionState record, the two outbound network calls (token exchange
and profile fetch) become oracle parameters of the handler, and JSON objects
become association lists of string pairs.  Python truthiness of optional
strings and of dictionaries is modelled explicitly, because the source
branches on it (lines 107, 119, 127, 133 of the source).
-/

namespace StLogin

/-- A JSON object, as returned by response.json(), modelled as an association
list of string keys to string values.  Python treats the empty dict as falsy,
which the source relies on at line 133. -/
abbrev JsonObj := List (String × String)

/-- Python truthiness of a dict: empty dicts are falsy. -/
def jsonTruthy (o : JsonObj) : Bool := !o.isEmpty

/-- Python truthiness of an optional dict (None and the empty dict are falsy). -/
def jsonTruthyOpt : Option JsonObj → Bool
  | none => false
  | some o => jsonTruthy o

/-- Python truthiness of an optional string (None and the empty string are
falsy), as used by the checks at lines 107 and 127 of the source. -/
def strTruthy : Option String → Bool
  | none => false
  | some s => !s.isEmpty

/-- Process environment, lines 12-14 of the source: GOOGLE_CLIENT_ID,
GOOGLE_CLIENT_SECRET and REDIRECT_URI read with os.getenv (absent = none). -/
structure Env where
  CLIENT_ID : Option String
  CLIENT_SECRET : Option String
  REDIRECT_URI_env : Option String
  deriving DecidableEq

/-- Line 14 of the source: REDIRECT_URI defaults to the placeholder URL when
the environment variable is absent. -/
def REDIRECT_URI (env : Env) : String :=
  env.REDIRECT_URI_env.getD "https://your-app-name.streamlit.app"

/-- Lines 17-18 of the source: the fixed OAuth2 scopes. -/
def SCOPES : List String :=
  ["openid", "https://www.googleapis.com/auth/userinfo.email",
   "https://www.googleapis.com/auth/userinfo.profile"]

/-- The credential object returned by flow.fetch_token / flow.credentials
(line 60 of the source): the fields main reads at lines 137-142. -/
structure Credentials where
  token : String
  refresh_token : Option String
  token_uri : String
  client_id : Option String
  client_secret : Option String
  scopes : List String
  deriving DecidableEq

/-- The credentials dict stored into session state at lines 136-143 of the
source, field for field from the Credentials object. -/
structure StoredCredentials where
  token : String
  refresh_token : Option String
  token_uri : String
  client_id : Option String
  client_secret : Option String
  scopes : List String
  deriving DecidableEq

/-- Lines 136-143 of the source: the dict literal built from credentials. -/
def credDict (c : Credentials) : StoredCredentials :=
  { token := c.token, refresh_token := c.refresh_token, token_uri := c.token_uri,
    client_id := c.client_id, client_secret := c.client_secret, scopes := c.scopes }

/-- The Streamlit session state fields the source uses: user_info,
is_authenticated (initialised at lines 21-24) and credentials (first written
at line 136 or cleared by sign_out; absence is modelled as none). -/
structure SessionState where
  user_info : Option JsonObj
  is_authenticated : Bool
  credentials : Option StoredCredentials
  deriving DecidableEq

/-- Lines 21-24 of the source: the initial session state. -/
def sessionInit : SessionState :=
  { user_info := none, is_authenticated := false, credentials := none }

/-- Lines 75-79 of the source: sign_out resets all three session fields,
unconditionally, with no network call. -/
def sign_out (_s : SessionState) : SessionState :=
  { user_info := none, is_authenticated := false, credentials := none }

/-- The OAuth flow object assembled by create_flow, lines 29-42 of the
source. -/
structure Flow where
  client_id : Option String
  client_secret : Option String
  auth_uri : String
  token_uri : String
  redirect_uri : String
  scopes : List String
  deriving DecidableEq

/-- Lines 27-42 of the source: create_flow builds the flow from the fixed
Google endpoints, the environment credentials, the redirect URI and SCOPES. -/
def create_flow (env : Env) : Flow :=
  { client_id := env.CLIENT_ID, client_secret := env.CLIENT_SECRET,
    auth_uri := "https://accounts.google.com/o/oauth2/auth",
    token_uri := "https://oauth2.googleapis.com/token",
    redirect_uri := REDIRECT_URI env, scopes := SCOPES }

/-- Hex digit for percent-encoding (uppercase, as urllib quotes). -/
def hexDigit (n : Nat) : Char :=
  if n < 10 then Char.ofNat (48 + n) else Char.ofNat (55 + n)

/-- Characters left unescaped by URL percent-encoding. -/
def isUnreserved (c : Char) : Bool :=
  c.isAlphanum || c == '-' || c == '_' || c == '.' || c == '~'

/-- Percent-encode one character. -/
def percentEncodeChar (c : Char) : String :=
  String.mk ['%', hexDigit (c.toNat / 16), hexDigit (c.toNat % 16)]

/-- URL-escape a string: unreserved characters kept, the rest
percent-encoded. -/
def urlquote (s : String) : String :=
  String.join (s.toList.map (fun c =>
    if isUnreserved c then String.mk [c] else percentEncodeChar c))

/-- Modelled from the spec: the query parameters of the authorization URL
built by google_auth_oauthlib's Flow.authorization_url, which is third-party
library code absent from src/.  Per the spec (section 4.1) the URL carries
response_type=code, client_id, redirect_uri, scope (space-joined), a fresh
state token, and the keyword arguments the source passes at lines 48-52:
access_type=offline, include_granted_scopes=true, prompt=consent. -/
def authorizationUrlParams (flow : Flow) (state : String) : List (String × String) :=
  [("response_type", "code"),
   ("client_id", flow.client_id.getD ""),
   ("redirect_uri", flow.redirect_uri),
   ("scope", String.intercalate " " flow.scopes),
   ("state", state),
   ("access_type", "offline"),
   ("include_granted_scopes", "true"),
   ("prompt", "consent")]

/-- Render a query string: values URL-escaped, pairs joined with ampersands. -/
def urlencodeParams (ps : List (String × String)) : String :=
  String.intercalate "&" (ps.map (fun p => p.1 ++ "=" ++ urlquote p.2))

/-- Modelled from the spec: Flow.authorization_url (google_auth_oauthlib,
absent from src/) returns the authorization endpoint URL carrying the query
parameters above, together with the freshly generated state token.  The
randomness of the state token is supplied as the state argument. -/
def flow_authorization_url (flow : Flow) (state : String) : String × String :=
  (flow.auth_uri ++ "?" ++ urlencodeParams (authorizationUrlParams flow state), state)

/-- Lines 45-53 of the source: get_authorization_url returns only the URL and
discards the state component of the pair returned by the library. -/
def get_authorization_url (env : Env) (state : String) : String :=
  (flow_authorization_url (create_flow env) state).1

/-- Outcome of exchange_code_for_token (lines 56-61 of the source): the
network call either returns a Credentials object or raises; the oracle value
is supplied to main as a parameter. -/
inductive ExchangeOutcome where
  | ok (c : Credentials)
  | raises (msg : String)
  deriving DecidableEq

/-- An HTTP response as seen by get_user_info: the status code and the result
of attempting to parse the body as JSON (none when response.json() would
raise). -/
structure HttpResponse where
  status_code : Nat
  jsonBody : Option JsonObj
  deriving DecidableEq

/-- Lines 64-72 of the source.  The GET itself is an oracle: Except.error
models requests.get raising.  On status 200 the body is parsed —
response.json() raises on a malformed body, modelled as Except.error
"JSONDecodeError", and that exception escapes get_user_info.  On any other
status the function returns None. -/
def get_user_info (fetch : Except String HttpResponse) : Except String (Option JsonObj) :=
  match fetch with
  | Except.error msg => Except.error msg
  | Except.ok response =>
      if response.status_code == 200 then
        match response.jsonBody with
        | some o => Except.ok (some o)
        | none => Except.error "JSONDecodeError"
      else
        Except.ok none

/-- A successful profile fetch as main sees it: the call returned, the status
was 200, the body parsed, and the resulting dict is truthy (line 133). -/
def profileOk (fetch : Except String HttpResponse) : Bool :=
  match get_user_info fetch with
  | Except.ok (some o) => jsonTruthy o
  | _ => false

/-- The inbound request context, line 115-116 of the source: the first value
of the code query parameter (none when absent), and the state parameter the
provider echoes back, which the source never reads. -/
structure RequestCtx where
  code : Option String
  state : Option String
  deriving DecidableEq

/-- What main renders for the caller, lines 103-186 of the source. -/
inductive Rendered where
  | configError
  | userInfoPage (info : JsonObj)
  | authFailedMsg
  | authErrorMsg (msg : String)
  | rerunSignal
  | loginPrompt (authUrl : String)
  deriving DecidableEq

/-- Result of one run of main: the session after the run, what was rendered,
whether the query parameters were cleared and a rerun requested, and which of
the two outbound network calls were attempted. -/
structure MainResult where
  session : SessionState
  rendered : Rendered
  clearedParams : Bool
  rerun : Bool
  exchangeCalled : Bool
  fetchCalled : Bool
  deriving DecidableEq

/-- Lines 103-186 of the source.  Branch structure: the configuration check
(line 107), the authenticated branch (line 119), the code-exchange branch
(lines 127-151) with its try/except — an exception raised by the exchange or
by get_user_info is caught at line 150 and leaves the session untouched — and
the login branch (lines 154-186).  The success branch (lines 133-147) is the
only write to the session. -/
def main (env : Env) (ctx : RequestCtx) (s : SessionState)
    (exch : ExchangeOutcome) (fetch : Except String HttpResponse)
    (rand : String) : MainResult :=
  if !strTruthy env.CLIENT_ID || !strTruthy env.CLIENT_SECRET then
    { session := s, rendered := Rendered.configError, clearedParams := false,
      rerun := false, exchangeCalled := false, fetchCalled := false }
  else if s.is_authenticated && jsonTruthyOpt s.user_info then
    { session := s, rendered := Rendered.userInfoPage (s.user_info.getD []),
      clearedParams := false, rerun := false, exchangeCalled := false,
      fetchCalled := false }
  else if strTruthy ctx.code then
    (match exch with
     | ExchangeOutcome.raises msg =>
        { session := s, rendered := Rendered.authErrorMsg msg,
          clearedParams := false, rerun := false, exchangeCalled := true,
          fetchCalled := false }
     | ExchangeOutcome.ok credentials =>
        match get_user_info fetch with
        | Except.error msg =>
            { session := s, rendered := Rendered.authErrorMsg msg,
              clearedParams := false, rerun := false, exchangeCalled := true,
              fetchCalled := true }
        | Except.ok user_info =>
            if jsonTruthyOpt user_info then
              { session := { user_info := user_info, is_authenticated := true,
                             credentials := some (credDict credentials) },
                rendered := Rendered.rerunSignal, clearedParams := true,
                rerun := true, exchangeCalled := true, fetchCalled := true }
            else
              { session := s, rendered := Rendered.authFailedMsg,
                clearedParams := false, rerun := false, exchangeCalled := true,
                fetchCalled := true })
  else
    { session := s, rendered := Rendered.loginPrompt (get_authorization_url env rand),
      clearedParams := false, rerun := false, exchangeCalled := false,
      fetchCalled := false }

/-- An operation on the session: one run of main (with its oracles) or an
explicit sign-out click (the button callback at line 98 of the source). -/
inductive Op where
  | runMain (env : Env) (ctx : RequestCtx) (exch : ExchangeOutcome)
      (fetch : Except String HttpResponse) (rand : String)
  | signOut

/-- Apply one operation to a session. -/
def applyOp (s : SessionState) : Op → SessionState
  | Op.runMain env ctx exch fetch rand => (main env ctx s exch fetch rand).session
  | Op.signOut => sign_out s

/-- Run a sequence of operations from a session state. -/
def run (s : SessionState) (ops : List Op) : SessionState :=
  ops.foldl applyOp s

/-- The session invariant: an authenticated session has a truthy (non-empty)
profile and stored credentials. -/
def Inv (s : SessionState) : Prop :=
  s.is_authenticated = true →
    jsonTruthyOpt s.user_info = true ∧ s.credentials.isSome = true

/- Concrete data used by witnesses. -/

/-- A well-formed environment for concrete runs. -/
def envDemo : Env :=
  { CLIENT_ID := some "client-id", CLIENT_SECRET := some "client-secret",
    REDIRECT_URI_env := some "https://demo.example/cb" }

/-- Credentials as returned by the mocked exchange of the spec scenario. -/
def credsDemo : Credentials :=
  { token := "tok123", refresh_token := some "ref456",
    token_uri := "https://oauth2.googleapis.com/token",
    client_id := some "client-id", client_secret := some "client-secret",
    scopes := SCOPES }

/-- The profile of the spec scenario. -/
def adaProfile : JsonObj := [("id", "42"), ("name", "Ada"), ("email", "a@x.com")]

/-- A 200 response carrying the scenario profile. -/
def respDemo : HttpResponse := { status_code := 200, jsonBody := some adaProfile }

/-- A request context carrying a non-empty authorization code. -/
def ctxDemo : RequestCtx := { code := some "code-abc", state := none }

/- Helper lemmas shared by the claim theorems. -/

/-- Either main leaves the session unchanged, or it was the successful
exchange-then-fetch path: the code was truthy, the exchange returned
credentials, the profile fetch succeeded with a truthy object, and the new
session is authenticated with profile and credentials set. -/
theorem main_session_cases (env : Env) (ctx : RequestCtx) (s : SessionState)
    (exch : ExchangeOutcome) (fetch : Except String HttpResponse) (rand : String) :
    (main env ctx s exch fetch rand).session = s ∨
    (strTruthy ctx.code = true ∧ (∃ c, exch = ExchangeOutcome.ok c) ∧
      profileOk fetch = true ∧
      (main env ctx s exch fetch rand).session.is_authenticated = true ∧
      jsonTruthyOpt (main env ctx s exch fetch rand).session.user_info = true ∧
      (main env ctx s exch fetch rand).session.credentials.isSome = true) := by
  unfold main
  split
  · exact Or.inl rfl
  · split
    · exact Or.inl rfl
    · split
      · next hcode =>
        cases exch with
        | raises msg => exact Or.inl rfl
        | ok c =>
          rcases hui : get_user_info fetch with msg | ui
          · exact Or.inl rfl
          · cases ui with
            | none => exact Or.inl rfl
            | some o =>
              cases ho : jsonTruthy o with
              | false =>
                simp only [jsonTruthyOpt, ho]
                exact Or.inl rfl
              | true =>
                refine Or.inr ⟨hcode, ⟨c, rfl⟩, ?_, ?_⟩
                · simp [profileOk, hui, ho]
                · simp [jsonTruthyOpt, ho]
      · exact Or.inl rfl

/-- If the result of main says the exchange was attempted, the inbound code
was truthy. -/
theorem main_exchange_needs_code (env : Env) (ctx : RequestCtx) (s : SessionState)
    (exch : ExchangeOutcome) (fetch : Except String HttpResponse) (rand : String)
    (h : (main env ctx s exch fetch rand).exchangeCalled = true) :
    strTruthy ctx.code = true := by
  unfold main at h
  split at h
  · exact Bool.noConfusion h
  · split at h
    · exact Bool.noConfusion h
    · split at h
      · next hc => exact hc
      · exact Bool.noConfusion h

/-- C1: with a non-empty authorization code on an unauthenticated session,
well-formed configuration, a successful exchange and a successful, truthy
profile fetch, main authenticates the session in this single run, storing
exactly the fetched profile and the credential dict copied from the exchange
result; both outbound calls happened. -/
theorem C1_success_authenticates (env : Env) (ctx : RequestCtx) (s : SessionState)
    (creds : Credentials) (resp : HttpResponse) (o : JsonObj) (rand : String)
    (hid : strTruthy env.CLIENT_ID = true)
    (hsec : strTruthy env.CLIENT_SECRET = true)
    (hcode : strTruthy ctx.code = true)
    (hs : s.is_authenticated = false)
    (hstatus : resp.status_code = 200)
    (hbody : resp.jsonBody = some o)
    (ho : o.isEmpty = false) :
    (main env ctx s (ExchangeOutcome.ok creds) (Except.ok resp) rand).session =
      { user_info := some o, is_authenticated := true,
        credentials := some (credDict creds) } ∧
    (main env ctx s (ExchangeOutcome.ok creds) (Except.ok resp) rand).exchangeCalled = true ∧
    (main env ctx s (ExchangeOutcome.ok creds) (Except.ok resp) rand).fetchCalled = true := by
  have hui : get_user_info (Except.ok resp) = Except.ok (some o) := by
    simp [get_user_info, hstatus, hbody]
  unfold main
  simp [hid, hsec, hcode, hs, hui, jsonTruthyOpt, jsonTruthy, ho]

/-- C1 witness: the spec scenario — exchange returns tok123/ref456, fetch
returns the Ada profile, the final session is Authenticated with exactly that
profile and those credentials. -/
theorem C1_success_authenticates_witness :
    strTruthy envDemo.CLIENT_ID = true ∧ strTruthy envDemo.CLIENT_SECRET = true ∧
    strTruthy ctxDemo.code = true ∧ sessionInit.is_authenticated = false ∧
    respDemo.status_code = 200 ∧ respDemo.jsonBody = some adaProfile ∧
    adaProfile.isEmpty = false ∧
    (credDict credsDemo).token = "tok123" ∧
    (credDict credsDemo).refresh_token = some "ref456" ∧
    (main envDemo ctxDemo sessionInit (ExchangeOutcome.ok credsDemo)
        (Except.ok respDemo) "r").session =
      { user_info := some adaProfile, is_authenticated := true,
        credentials := some (credDict credsDemo) } :=
  ⟨by decide, by decide, by decide, rfl, rfl, rfl, by decide, rfl, rfl,
    (C1_success_authenticates envDemo ctxDemo sessionInit credsDemo respDemo
      adaProfile "r" (by decide) (by decide) (by decide) rfl rfl rfl
      (by decide)).1⟩

/-- C2: if the token exchange raises, the profile fetch is not attempted and
the session is unchanged; and whenever the profile fetch does not fully
succeed (network raise, non-200 status, malformed body, or a falsy object),
the session is unchanged — no partial session update is ever visible. -/
theorem C2_fail_fast_no_partial_state (env : Env) (ctx : RequestCtx)
    (s : SessionState) (exch : ExchangeOutcome)
    (fetch : Except String HttpResponse) (rand : String) :
    (∀ msg, exch = ExchangeOutcome.raises msg →
      (main env ctx s exch fetch rand).session = s ∧
      (main env ctx s exch fetch rand).fetchCalled = false) ∧
    (profileOk fetch = false → (main env ctx s exch fetch rand).session = s) := by
  constructor
  · intro msg hmsg
    subst hmsg
    unfold main
    split
    · exact ⟨rfl, rfl⟩
    · split
      · exact ⟨rfl, rfl⟩
      · split
        · exact ⟨rfl, rfl⟩
        · exact ⟨rfl, rfl⟩
  · intro hp
    rcases main_session_cases env ctx s exch fetch rand with h | h
    · exact h
    · rw [h.2.2.1] at hp
      exact Bool.noConfusion hp

/-- C2 witness: a raising exchange leaves the initial session untouched and
never calls the fetch; a 500 profile response after a successful exchange
also leaves it untouched. -/
theorem C2_fail_fast_no_partial_state_witness :
    ((main envDemo ctxDemo sessionInit (ExchangeOutcome.raises "boom")
        (Except.ok respDemo) "r").session = sessionInit ∧
      (main envDemo ctxDemo sessionInit (ExchangeOutcome.raises "boom")
        (Except.ok respDemo) "r").fetchCalled = false) ∧
    (main envDemo ctxDemo sessionInit (ExchangeOutcome.ok credsDemo)
        (Except.ok { status_code := 500, jsonBody := none }) "r").session =
      sessionInit :=
  ⟨(C2_fail_fast_no_partial_state envDemo ctxDemo sessionInit
      (ExchangeOutcome.raises "boom") (Except.ok respDemo) "r").1 "boom" rfl,
    (C2_fail_fast_no_partial_state envDemo ctxDemo sessionInit
      (ExchangeOutcome.ok credsDemo)
      (Except.ok { status_code := 500, jsonBody := none }) "r").2 (by decide)⟩

/-- C6: with a falsy (absent or empty) client id or client secret, main
reports the configuration error and returns at once: the session is
unchanged and neither outbound call is attempted. -/
theorem C6_config_error_before_any_flow (env : Env) (ctx : RequestCtx)
    (s : SessionState) (exch : ExchangeOutcome)
    (fetch : Except String HttpResponse) (rand : String)
    (h : strTruthy env.CLIENT_ID = false ∨ strTruthy env.CLIENT_SECRET = false) :
    main env ctx s exch fetch rand =
      { session := s, rendered := Rendered.configError, clearedParams := false,
        rerun := false, exchangeCalled := false, fetchCalled := false } := by
  unfold main
  rcases h with h | h <;> simp [h]

/-- C6 witness: the spec scenario of an empty client secret, with a code
present and oracles ready — main still performs zero outbound calls. -/
theorem C6_config_error_before_any_flow_witness :
    (strTruthy (Env.mk (some "client-id") (some "") none).CLIENT_ID = false ∨
      strTruthy (Env.mk (some "client-id") (some "") none).CLIENT_SECRET = false) ∧
    main (Env.mk (some "client-id") (some "") none) ctxDemo sessionInit
        (ExchangeOutcome.ok credsDemo) (Except.ok respDemo) "r" =
      { session := sessionInit, rendered := Rendered.configError,
        clearedParams := false, rerun := false, exchangeCalled := false,
        fetchCalled := false } :=
  ⟨Or.inr (by decide),
    C6_config_error_before_any_flow (Env.mk (some "client-id") (some "") none)
      ctxDemo sessionInit (ExchangeOutcome.ok credsDemo) (Except.ok respDemo)
      "r" (Or.inr (by decide))⟩

/-- C7: sign_out maps every session state to the full reset — profile and
credentials discarded, unauthenticated — and is idempotent; it is a total
pure function, so it performs no network call and never fails. -/
theorem C7_sign_out_unconditional_idempotent (s : SessionState) :
    sign_out s =
      { user_info := none, is_authenticated := false, credentials := none } ∧
    sign_out (sign_out s) = sign_out s :=
  ⟨rfl, rfl⟩

/-- One operation preserves the session invariant. -/
theorem inv_applyOp (s : SessionState) (op : Op) (h : Inv s) : Inv (applyOp s op) := by
  cases op with
  | signOut =>
    intro hfalse
    exact Bool.noConfusion hfalse
  | runMain env ctx exch fetch rand =>
    rcases main_session_cases env ctx s exch fetch rand with heq | hsucc
    · simp only [applyOp]
      rw [heq]
      exact h
    · intro _
      exact ⟨hsucc.2.2.2.2.1, hsucc.2.2.2.2.2⟩

/-- Every session reached by a sequence of operations from an invariant
state satisfies the invariant. -/
theorem inv_run (ops : List Op) : ∀ s : SessionState, Inv s → Inv (run s ops) := by
  induction ops with
  | nil => intro s h; exact h
  | cons op rest ih =>
    intro s h
    exact ih (applyOp s op) (inv_applyOp s op h)

/-- C3: every state reachable from the initial session by runs of main (any
context, any oracle outcomes) and sign-outs satisfies the invariant —
authenticated implies a truthy stored profile and present credentials;
moreover the only operation taking an authenticated session to an
unauthenticated one is the explicit sign-out, and the only operation taking
an unauthenticated session to an authenticated one is a run of main with a
truthy code whose exchange returned credentials and whose profile fetch
fully succeeded. -/
theorem C3_invariant_and_transitions (ops : List Op) (s : SessionState) (op : Op) :
    Inv (run sessionInit ops) ∧
    (s.is_authenticated = true → (applyOp s op).is_authenticated = false →
      op = Op.signOut) ∧
    (s.is_authenticated = false → (applyOp s op).is_authenticated = true →
      ∃ env ctx exch fetch rand,
        op = Op.runMain env ctx exch fetch rand ∧
        (∃ c, exch = ExchangeOutcome.ok c) ∧ profileOk fetch = true ∧
        strTruthy ctx.code = true) := by
  refine ⟨inv_run ops sessionInit (fun hfalse => Bool.noConfusion hfalse), ?_, ?_⟩
  · intro hauth hdrop
    cases op with
    | signOut => rfl
    | runMain env ctx exch fetch rand =>
      exfalso
      rcases main_session_cases env ctx s exch fetch rand with heq | hsucc
      · simp only [applyOp] at hdrop
        rw [heq] at hdrop
        rw [hauth] at hdrop
        exact Bool.noConfusion hdrop
      · simp only [applyOp] at hdrop
        rw [hsucc.2.2.2.1] at hdrop
        exact Bool.noConfusion hdrop
  · intro hunauth hraise
    cases op with
    | signOut =>
      exfalso
      simp only [applyOp, sign_out] at hraise
      exact Bool.noConfusion hraise
    | runMain env ctx exch fetch rand =>
      rcases main_session_cases env ctx s exch fetch rand with heq | hsucc
      · exfalso
        simp only [applyOp] at hraise
        rw [heq, hunauth] at hraise
        exact Bool.noConfusion hraise
      · exact ⟨env, ctx, exch, fetch, rand, rfl, hsucc.2.1, hsucc.2.2.1, hsucc.1⟩

/-- The successful authentication operation used by the C3 witness. -/
def successOp : Op :=
  Op.runMain envDemo ctxDemo (ExchangeOutcome.ok credsDemo) (Except.ok respDemo) "r"

/-- An authenticated session used by the C3 witness. -/
def authSessionDemo : SessionState :=
  { user_info := some adaProfile, is_authenticated := true,
    credentials := some (credDict credsDemo) }

/-- C3 witness: the invariant holds after a concrete successful run; signing
out is the operation that de-authenticates the concrete authenticated
session; and the concrete successful run is characterised as a main run with
a truthy code, a successful exchange and a fully successful fetch. -/
theorem C3_invariant_and_transitions_witness :
    Inv (run sessionInit [successOp]) ∧
    Op.signOut = Op.signOut ∧
    (∃ env ctx exch fetch rand,
      successOp = Op.runMain env ctx exch fetch rand ∧
      (∃ c, exch = ExchangeOutcome.ok c) ∧ profileOk fetch = true ∧
      strTruthy ctx.code = true) :=
  ⟨(C3_invariant_and_transitions [successOp] authSessionDemo Op.signOut).1,
    (C3_invariant_and_transitions [successOp] authSessionDemo Op.signOut).2.1
      (by decide) (by decide),
    (C3_invariant_and_transitions [successOp] sessionInit successOp).2.2
      (by decide) (by decide)⟩

/-- C9: a request whose code parameter is present but empty is handled
exactly like a request with no code parameter at all (the login prompt is
rendered, by the truthiness test at line 127 of the source); consequently
the exchange branch is only ever entered with a truthy, hence non-empty,
code. -/
theorem C9_empty_code_like_no_code (env : Env) (s : SessionState)
    (exch : ExchangeOutcome) (fetch : Except String HttpResponse)
    (rand : String) (st : Option String) (ctx : RequestCtx) :
    main env { code := some "", state := st } s exch fetch rand =
      main env { code := none, state := st } s exch fetch rand ∧
    ((main env ctx s exch fetch rand).exchangeCalled = true →
      strTruthy ctx.code = true) := by
  constructor
  · have hempty : strTruthy (some "") = strTruthy none := by decide
    unfold main
    rw [hempty]
  · exact main_exchange_needs_code env ctx s exch fetch rand

/-- C9 witness: on a concrete run whose exchange was attempted, the code was
truthy; and the empty-code context produces literally the same result record
as the absent-code context. -/
theorem C9_empty_code_like_no_code_witness :
    main envDemo { code := some "", state := none } sessionInit
        (ExchangeOutcome.ok credsDemo) (Except.ok respDemo) "r" =
      main envDemo { code := none, state := none } sessionInit
        (ExchangeOutcome.ok credsDemo) (Except.ok respDemo) "r" ∧
    strTruthy ctxDemo.code = true :=
  ⟨(C9_empty_code_like_no_code envDemo sessionInit (ExchangeOutcome.ok credsDemo)
      (Except.ok respDemo) "r" none ctxDemo).1,
    (C9_empty_code_like_no_code envDemo sessionInit (ExchangeOutcome.ok credsDemo)
      (Except.ok respDemo) "r" none ctxDemo).2 (by decide)⟩

/-- C4 counterexample: on an HTTP 200 response with a malformed (non-JSON)
body, get_user_info does not return the None error outcome — the
response.json() exception escapes the function (modelled as Except.error). -/
theorem C4_malformed_body_escapes_cx :
    get_user_info (Except.ok { status_code := 200, jsonBody := none }) =
      Except.error "JSONDecodeError" ∧
    get_user_info (Except.ok { status_code := 200, jsonBody := none }) ≠
      Except.ok none := by
  constructor
  · rfl
  · intro h
    exact Except.noConfusion h

/-- C4 (amended): get_user_info returns the parsed object exactly on HTTP 200
with a parseable JSON body, and returns None (its error outcome) on any
non-200 status; but on a 200 with a malformed body the parse exception
escapes get_user_info rather than becoming the error outcome — it is only
caught at the boundary of main, where it leaves the session unchanged. -/
theorem C4_profile_fetch_outcomes (resp : HttpResponse) (o : JsonObj)
    (env : Env) (ctx : RequestCtx) (s : SessionState) (creds : Credentials)
    (rand : String) :
    (resp.status_code = 200 → resp.jsonBody = some o →
      get_user_info (Except.ok resp) = Except.ok (some o)) ∧
    (resp.status_code ≠ 200 → get_user_info (Except.ok resp) = Except.ok none) ∧
    (resp.status_code = 200 → resp.jsonBody = none →
      get_user_info (Except.ok resp) = Except.error "JSONDecodeError") ∧
    (resp.status_code = 200 → resp.jsonBody = none →
      (main env ctx s (ExchangeOutcome.ok creds) (Except.ok resp) rand).session = s) := by
    refine ⟨?_, ?_, ?_, ?_⟩
    · intro h1 h2
      simp [get_user_info, h1, h2]
    · intro h1
      simp [get_user_info, h1]
    · intro h1 h2
      simp [get_user_info, h1, h2]
    · intro h1 h2
      rcases main_session_cases env ctx s (ExchangeOutcome.ok creds)
          (Except.ok resp) rand with h | h
      · exact h
      · exfalso
        have hp := h.2.2.1
        simp [profileOk, get_user_info, h1, h2] at hp

/-- C4 witness: a 200 with the Ada profile parses; a 404 yields the None
outcome; a 200 with a malformed body leaves a concrete session unchanged
after the exception is caught in main. -/
theorem C4_profile_fetch_outcomes_witness :
    get_user_info (Except.ok respDemo) = Except.ok (some adaProfile) ∧
    get_user_info (Except.ok { status_code := 404, jsonBody := none }) =
      Except.ok none ∧
    (main envDemo ctxDemo sessionInit (ExchangeOutcome.ok credsDemo)
        (Except.ok { status_code := 200, jsonBody := none }) "r").session =
      sessionInit :=
  ⟨(C4_profile_fetch_outcomes respDemo adaProfile envDemo ctxDemo sessionInit
      credsDemo "r").1 rfl rfl,
    (C4_profile_fetch_outcomes { status_code := 404, jsonBody := none } []
      envDemo ctxDemo sessionInit credsDemo "r").2.1 (by decide),
    (C4_profile_fetch_outcomes { status_code := 200, jsonBody := none } []
      envDemo ctxDemo sessionInit credsDemo "r").2.2.2 rfl rfl⟩

/-- C5: for a configuration with truthy client id and non-empty redirect URI,
the authorization URL is the provider's authorization endpoint with a query
carrying access_type=offline, include_granted_scopes=true, prompt=consent,
response_type=code, the configured client id, the configured redirect URI
(URL-escaped by urlencodeParams when rendered) and the space-joined scopes. -/
theorem C5_authorization_url_params (env : Env) (rand : String)
    (hid : strTruthy env.CLIENT_ID = true)
    (hred : (REDIRECT_URI env).isEmpty = false) :
    ("access_type", "offline") ∈ authorizationUrlParams (create_flow env) rand ∧
    ("include_granted_scopes", "true") ∈ authorizationUrlParams (create_flow env) rand ∧
    ("prompt", "consent") ∈ authorizationUrlParams (create_flow env) rand ∧
    ("response_type", "code") ∈ authorizationUrlParams (create_flow env) rand ∧
    ("client_id", env.CLIENT_ID.getD "") ∈ authorizationUrlParams (create_flow env) rand ∧
    ("redirect_uri", REDIRECT_URI env) ∈ authorizationUrlParams (create_flow env) rand ∧
    ("scope", String.intercalate " " SCOPES) ∈ authorizationUrlParams (create_flow env) rand ∧
    get_authorization_url env rand =
      "https://accounts.google.com/o/oauth2/auth" ++ "?" ++
        urlencodeParams (authorizationUrlParams (create_flow env) rand) := by
  refine ⟨?_, ?_, ?_, ?_, ?_, ?_, ?_, rfl⟩ <;>
    simp [authorizationUrlParams, create_flow]

/-- C5 witness: the parameters are present for a concrete configuration. -/
theorem C5_authorization_url_params_witness :
    strTruthy envDemo.CLIENT_ID = true ∧
    (REDIRECT_URI envDemo).isEmpty = false ∧
    (("access_type", "offline") ∈ authorizationUrlParams (create_flow envDemo) "xyz" ∧
      ("include_granted_scopes", "true") ∈ authorizationUrlParams (create_flow envDemo) "xyz" ∧
      ("prompt", "consent") ∈ authorizationUrlParams (create_flow envDemo) "xyz" ∧
      ("response_type", "code") ∈ authorizationUrlParams (create_flow envDemo) "xyz" ∧
      ("client_id", envDemo.CLIENT_ID.getD "") ∈ authorizationUrlParams (create_flow envDemo) "xyz" ∧
      ("redirect_uri", REDIRECT_URI envDemo) ∈ authorizationUrlParams (create_flow envDemo) "xyz" ∧
      ("scope", String.intercalate " " SCOPES) ∈ authorizationUrlParams (create_flow envDemo) "xyz" ∧
      get_authorization_url envDemo "xyz" =
        "https://accounts.google.com/o/oauth2/auth" ++ "?" ++
          urlencodeParams (authorizationUrlParams (create_flow envDemo) "xyz")) :=
  ⟨by decide, by decide,
    C5_authorization_url_params envDemo "xyz" (by decide) (by decide)⟩

/-- C8 counterexample: after a concrete run that renders the login URL (whose
query embeds the state token), the session still equals the initial session —
no state value was retained anywhere in the core — and the result of main is
bit-for-bit identical when the inbound state parameter differs, so the
inbound state echo cannot be verified. -/
theorem C8_state_not_retained_cx :
    (main envDemo { code := none, state := some "echo-a" } sessionInit
        (ExchangeOutcome.raises "boom")
        (Except.ok { status_code := 500, jsonBody := none })
        "state-token").session = sessionInit ∧
    main envDemo { code := none, state := some "echo-a" } sessionInit
        (ExchangeOutcome.raises "boom")
        (Except.ok { status_code := 500, jsonBody := none }) "state-token" =
      main envDemo { code := none, state := some "echo-b" } sessionInit
        (ExchangeOutcome.raises "boom")
        (Except.ok { status_code := 500, jsonBody := none }) "state-token" :=
  ⟨rfl, rfl⟩

/-- C8 (amended): the authorization URL does carry a state query parameter
holding the library's freshly generated token, but the core discards it:
get_authorization_url drops the state component of the library's return
value, main's behaviour is independent of the inbound state parameter, and a
run without a code leaves the session unchanged, so no state is ever
retained or verified. -/
theorem C8_state_in_url_but_discarded (env : Env) (rand : String)
    (c st1 st2 : Option String) (s : SessionState) (exch : ExchangeOutcome)
    (fetch : Except String HttpResponse) :
    ("state", rand) ∈ authorizationUrlParams (create_flow env) rand ∧
    get_authorization_url env rand = (flow_authorization_url (create_flow env) rand).1 ∧
    main env { code := c, state := st1 } s exch fetch rand =
      main env { code := c, state := st2 } s exch fetch rand ∧
    (main env { code := none, state := st1 } s exch fetch rand).session = s := by
  refine ⟨by simp [authorizationUrlParams], rfl, rfl, ?_⟩
  unfold main
  split
  · rfl
  · split
    · rfl
    · split
      · next hc => exact Bool.noConfusion hc
      · rfl

/-- C10: after a successful exchange on an unauthenticated session with a
truthy code and well-formed configuration, a 200 profile response whose JSON
body is the empty object is treated as a failed fetch (session unchanged,
failure message rendered), while any non-empty object — with no field
validation at all — is stored verbatim as the profile of the now
authenticated session. -/
theorem C10_empty_object_rejected_no_validation (env : Env) (ctx : RequestCtx)
    (s : SessionState) (creds : Credentials) (o : JsonObj) (rand : String)
    (hid : strTruthy env.CLIENT_ID = true)
    (hsec : strTruthy env.CLIENT_SECRET = true)
    (hcode : strTruthy ctx.code = true)
    (hs : s.is_authenticated = false)
    (ho : o.isEmpty = false) :
    (main env ctx s (ExchangeOutcome.ok creds)
        (Except.ok { status_code := 200, jsonBody := some [] }) rand).session = s ∧
    (main env ctx s (ExchangeOutcome.ok creds)
        (Except.ok { status_code := 200, jsonBody := some [] }) rand).rendered =
      Rendered.authFailedMsg ∧
    (main env ctx s (ExchangeOutcome.ok creds)
        (Except.ok { status_code := 200, jsonBody := some o }) rand).session =
      { user_info := some o, is_authenticated := true,
        credentials := some (credDict creds) } := by
  have hempty : get_user_info (Except.ok ({ status_code := 200, jsonBody := some [] } : HttpResponse)) =
      Except.ok (some []) := by
    simp [get_user_info]
  have hfull : get_user_info (Except.ok ({ status_code := 200, jsonBody := some o } : HttpResponse)) =
      Except.ok (some o) := by
    simp [get_user_info]
  refine ⟨?_, ?_, ?_⟩ <;>
    simp [main, hid, hsec, hcode, hs, hempty, hfull, jsonTruthyOpt, jsonTruthy, ho]

/-- C10 witness: a concrete run where the empty object is rejected, and a
concrete run where an object that has no id field at all is stored verbatim
as the profile. -/
theorem C10_empty_object_rejected_no_validation_witness :
    (main envDemo ctxDemo sessionInit (ExchangeOutcome.ok credsDemo)
        (Except.ok { status_code := 200, jsonBody := some [] }) "r").session =
      sessionInit ∧
    (main envDemo ctxDemo sessionInit (ExchangeOutcome.ok credsDemo)
        (Except.ok { status_code := 200, jsonBody := some [] }) "r").rendered =
      Rendered.authFailedMsg ∧
    (main envDemo ctxDemo sessionInit (ExchangeOutcome.ok credsDemo)
        (Except.ok { status_code := 200, jsonBody := some [("name", "NoId")] })
        "r").session =
      { user_info := some [("name", "NoId")], is_authenticated := true,
        credentials := some (credDict credsDemo) } :=
  C10_empty_object_rejected_no_validation envDemo ctxDemo sessionInit credsDemo
    [("name", "NoId")] "r" (by decide) (by decide) (by decide) rfl (by decide)

end StLogin
